import Mathlib

/-!
Shallow embedding of the teleop joystick-to-command core
(src/src/pb_teleop_twist_joy.cpp) and proofs about it.

Modelling conventions:
* C++ doubles and float axis values are modelled as rationals; the claims
  are about which values flow where, not about rounding.
* A sensor_msgs Joy message is an InputSample: its axes list and its
  buttons list (buttons are int32 in ROS; a button test in C++ is a
  nonzero test, modelled as Bool).
* std::map is modelled as an association list with List.lookup, matching
  map::find / map::at; operator[] on a missing profile key yields an
  empty map, matching Option.getD with the empty list.
* The two function-local static variables (pitch/yaw/last_time in
  fillJointStateMsg and last_goal_time in sendGoalPoseAction) become
  explicit fields of NodeState, each with an initialization flag that
  records whether control has reached the static declaration yet.
* ROS publications, action goal submissions and cancellations become an
  explicit list of Emission values returned by each step; the transform
  buffer lookup becomes an Option-valued parameter (none = the C++
  lookupTransform throws tf2::TransformException).
* this->now() is a time parameter t passed to the callback; the several
  now() calls inside one callback are idealized to return the same t.
-/

namespace PbTeleopTwistJoy

/-- A joystick input sample: ordered axis values and button states. -/
structure InputSample where
  axes : List ℚ
  buttons : List Bool
deriving DecidableEq

/-- The node configuration, fixed for the process lifetime (declared
parameters of the C++ node constructor). Axis maps send a channel name to
an axis index or the sentinel -1; scale maps are keyed by profile name
("normal" / "turbo") and then by channel name. -/
structure Config where
  require_enable_button : Bool
  enable_button : Int
  enable_turbo_button : Int
  inverted_reverse : Bool
  control_mode : String
  axis_chassis_map : List (String × Int)
  axis_gimbal_map : List (String × Int)
  scale_chassis_map : List (String × List (String × ℚ))
  scale_gimbal_map : List (String × List (String × ℚ))

/-- A geometry_msgs Twist: six scalar fields. -/
structure Twist where
  lin_x : ℚ
  lin_y : ℚ
  lin_z : ℚ
  ang_x : ℚ
  ang_y : ℚ
  ang_z : ℚ
deriving DecidableEq

/-- The default-constructed Twist published by sendZeroCommand. -/
def zeroTwist : Twist := ⟨0, 0, 0, 0, 0, 0⟩

/-- An observable output of one callback step: a cmd_vel publication, a
cmd_gimbal_joint publication, a navigate_to_pose goal submission
(carrying the transformed pose position), or an async_cancel_goals_before
request (carrying the cutoff time). -/
inductive Emission where
  | cmdVel (v : Twist)
  | jointState (pitch yaw : ℚ)
  | goal (x y : ℚ)
  | cancelGoalsBefore (t : ℚ)
deriving DecidableEq

/-- The mutable state of the node that persists across joy callbacks:
the sent_disable_msg_ member, the three static locals of
fillJointStateMsg (with joint_init recording whether that static
declaration has been reached), and the static last_goal_time of
sendGoalPoseAction (with goal_init likewise). -/
structure NodeState where
  sent_disable_msg : Bool
  pitch : ℚ
  yaw : ℚ
  last_time : ℚ
  joint_init : Bool
  last_goal_time : ℚ
  goal_init : Bool
deriving DecidableEq

/-- A coordinate transform as applied by tf2 doTransform to the goal
position, abstracted as a map on (x, y); the Option is none when the C++
lookupTransform call throws. -/
def TFLookup : Type := Option ((ℚ × ℚ) → (ℚ × ℚ))

/-- Embedding of the free function getVal: resolves a channel name
through an axis map and a scale map against a sample. Returns 0 when the
channel is absent from the axis map, mapped to -1, absent from the scale
map, or when the axis list is too short; otherwise the axis value times
the scale. The C++ vector indexing is only defined for a nonnegative
index; List.getD places the (unreachable for well-formed maps) negative
case at index 0. -/
def getVal (joy_msg : InputSample) (axis_map : List (String × Int))
    (scale_map : List (String × ℚ)) (fieldname : String) : ℚ :=
  match axis_map.lookup fieldname, scale_map.lookup fieldname with
  | some idx, some scale =>
      if idx = -1 ∨ (joy_msg.axes.length : Int) ≤ idx then 0
      else joy_msg.axes.getD idx.toNat 0 * scale
  | _, _ => 0

/-- The chassis scale profile selected by which_map, as
scale_chassis_map_[which_map] does in C++. -/
def chassisScale (cfg : Config) (which_map : String) : List (String × ℚ) :=
  (cfg.scale_chassis_map.lookup which_map).getD []

/-- The gimbal scale profile selected by which_map, as
scale_gimbal_map_[which_map] does in C++. -/
def gimbalScale (cfg : Config) (which_map : String) : List (String × ℚ) :=
  (cfg.scale_gimbal_map.lookup which_map).getD []

/-- The three classifications of a sample by the enable state machine. -/
inductive EnableState where
  | Disabled
  | Normal
  | Turbo
deriving DecidableEq

/-- The classification chain at the top of joyCallback: turbo button
configured, in range and pressed gives Turbo; otherwise no enable button
required, or enable button in range and pressed, gives Normal; otherwise
Disabled. -/
def classify (cfg : Config) (joy_msg : InputSample) : EnableState :=
  if 0 ≤ cfg.enable_turbo_button ∧
      cfg.enable_turbo_button < (joy_msg.buttons.length : Int) ∧
      joy_msg.buttons.getD cfg.enable_turbo_button.toNat false then
    EnableState.Turbo
  else if ¬cfg.require_enable_button ∨
      (cfg.enable_button < (joy_msg.buttons.length : Int) ∧
        joy_msg.buttons.getD cfg.enable_button.toNat false) then
    EnableState.Normal
  else
    EnableState.Disabled

/-- The profile name passed to sendCmdVelMsg for an enabled
classification ("turbo" from the first branch, "normal" from the
second). -/
def profileOf : EnableState → String
  | EnableState.Turbo => "turbo"
  | _ => "normal"

/-- Embedding of fillCmdVelMsg: composes the Twist from mapped chassis
and gimbal values, negating angular z when driving backward with
inverted_reverse set. -/
def fillCmdVelMsg (cfg : Config) (joy_msg : InputSample) (which_map : String) : Twist :=
  let lin_x := getVal joy_msg cfg.axis_chassis_map (chassisScale cfg which_map) "x"
  let ang_z := getVal joy_msg cfg.axis_gimbal_map (gimbalScale cfg which_map) "yaw"
  { lin_x := lin_x
    lin_y := getVal joy_msg cfg.axis_chassis_map (chassisScale cfg which_map) "y"
    lin_z := getVal joy_msg cfg.axis_chassis_map (chassisScale cfg which_map) "z"
    ang_z := if lin_x < 0 ∧ cfg.inverted_reverse then -ang_z else ang_z
    ang_y := getVal joy_msg cfg.axis_gimbal_map (gimbalScale cfg which_map) "pitch"
    ang_x := getVal joy_msg cfg.axis_gimbal_map (gimbalScale cfg which_map) "roll" }

/-- Embedding of fillJointStateMsg: integrates the mapped pitch and yaw
rates over the time elapsed since the previous invocation (the static
last_time; on the first invocation the static initializer makes dt zero)
and emits the accumulated positions as the joint state message. -/
def fillJointStateMsg (cfg : Config) (joy_msg : InputSample) (which_map : String)
    (t : ℚ) (st : NodeState) : NodeState × Emission :=
  let last_time := if st.joint_init then st.last_time else t
  let dt := t - last_time
  let pitch := st.pitch +
    getVal joy_msg cfg.axis_gimbal_map (gimbalScale cfg which_map) "pitch" * dt
  let yaw := st.yaw +
    getVal joy_msg cfg.axis_gimbal_map (gimbalScale cfg which_map) "yaw" * dt
  ({ st with pitch := pitch, yaw := yaw, last_time := t, joint_init := true },
    Emission.jointState pitch yaw)

/-- Embedding of sendGoalPoseAction: reads the mapped chassis x and y;
inside the 0.1 deadzone it only sets sent_disable_msg_ and returns; a
failed transform lookup returns before the static last_goal_time is
reached; otherwise the goal is submitted when at least 0.25 s have
elapsed since last_goal_time (which the static initializer sets to the
current time on first arrival), and last_goal_time is advanced only on
submission. -/
def sendGoalPoseAction (cfg : Config) (joy_msg : InputSample) (which_map : String)
    (t : ℚ) (tf : TFLookup) (st : NodeState) : NodeState × List Emission :=
  let x := getVal joy_msg cfg.axis_chassis_map (chassisScale cfg which_map) "x"
  let y := getVal joy_msg cfg.axis_chassis_map (chassisScale cfg which_map) "y"
  if |x| ≤ 1/10 ∧ |y| ≤ 1/10 then
    ({ st with sent_disable_msg := true }, [])
  else
    match tf with
    | none => (st, [])
    | some transform =>
      let p := transform (x, y)
      let last_goal_time := if st.goal_init then st.last_goal_time else t
      if 1/4 ≤ t - last_goal_time then
        ({ st with goal_init := true, last_goal_time := t }, [Emission.goal p.1 p.2])
      else
        ({ st with goal_init := true, last_goal_time := last_goal_time }, [])

/-- Embedding of sendCmdVelMsg: in manual_control mode publish the
composed Twist, otherwise run the goal pose action; in both cases then
publish the joint state message and set sent_disable_msg_. -/
def sendCmdVelMsg (cfg : Config) (joy_msg : InputSample) (which_map : String)
    (t : ℚ) (tf : TFLookup) (st : NodeState) : NodeState × List Emission :=
  let step1 :=
    if cfg.control_mode = "manual_control" then
      (st, [Emission.cmdVel (fillCmdVelMsg cfg joy_msg which_map)])
    else
      sendGoalPoseAction cfg joy_msg which_map t tf st
  let step2 := fillJointStateMsg cfg joy_msg which_map t step1.1
  ({ step2.1 with sent_disable_msg := true }, step1.2 ++ [step2.2])

/-- Embedding of sendZeroCommand: in auto_control mode request
cancellation of all goals before the current time, then publish a
default (all-zero) velocity command. -/
def sendZeroCommand (cfg : Config) (t : ℚ) : List Emission :=
  (if cfg.control_mode = "auto_control" then [Emission.cancelGoalsBefore t] else []) ++
    [Emission.cmdVel zeroTwist]

/-- Embedding of joyCallback, one full processing step for one sample:
dispatch on the classification; a Disabled sample sends the one-shot
zero command only when sent_disable_msg_ is still set, then clears it. -/
def joyCallback (cfg : Config) (joy_msg : InputSample) (t : ℚ) (tf : TFLookup)
    (st : NodeState) : NodeState × List Emission :=
  match classify cfg joy_msg with
  | EnableState.Turbo => sendCmdVelMsg cfg joy_msg ("turbo") t tf st
  | EnableState.Normal => sendCmdVelMsg cfg joy_msg ("normal") t tf st
  | EnableState.Disabled =>
    if st.sent_disable_msg then
      ({ st with sent_disable_msg := false }, sendZeroCommand cfg t)
    else
      (st, [])

/-- Processing of a list of samples, each with its arrival time and the
transform lookup outcome at that time; returns the final state and the
concatenated emissions. -/
def runList (cfg : Config) (st : NodeState)
    (inputs : List (InputSample × ℚ × TFLookup)) : NodeState × List Emission :=
  match inputs with
  | [] => (st, [])
  | i :: rest =>
    let step := joyCallback cfg i.1 i.2.1 i.2.2 st
    let next := runList cfg step.1 rest
    (next.1, step.2 ++ next.2)

/-- Number of zero velocity commands (stop commands) in an emission
list. -/
def stopCount (ems : List Emission) : ℕ :=
  ems.count (Emission.cmdVel zeroTwist)

/-- Whether an emission is a navigation goal submission. -/
def isGoal : Emission → Bool
  | Emission.goal _ _ => true
  | _ => false

/-- Number of goal submissions in an emission list. -/
def goalCount (ems : List Emission) : ℕ :=
  ems.countP isGoal

/-- A concrete manual-mode configuration used to instantiate theorems:
no enable button required, chassis x on axis 0 and y on axis 1, gimbal
yaw on axis 2, unit scales, reverse inversion on. -/
def manualCfg : Config :=
  { require_enable_button := false
    enable_button := 5
    enable_turbo_button := -1
    inverted_reverse := true
    control_mode := "manual_control"
    axis_chassis_map := [("x", 0), ("y", 1)]
    axis_gimbal_map := [("yaw", 2)]
    scale_chassis_map := [("normal", [("x", 1), ("y", 1), ("z", 1)])]
    scale_gimbal_map := [("normal", [("yaw", 1), ("pitch", 1), ("roll", 1)])] }

/-- The same configuration in goal-directed (auto_control) mode. -/
def autoCfg : Config :=
  { manualCfg with control_mode := "auto_control", inverted_reverse := false }

/-- A configuration that requires the enable button (index 0) and has a
turbo button on index 1. -/
def reqCfg : Config :=
  { manualCfg with
    require_enable_button := true
    enable_button := 0
    enable_turbo_button := 1 }

/-- The enable-button configuration in goal-directed mode. -/
def autoReqCfg : Config :=
  { reqCfg with control_mode := "auto_control" }

/-- A sample with a large chassis displacement (x = 1) and yaw rate 1/2. -/
def bigJoy : InputSample := ⟨[1, 0, 1/2], [true, false]⟩

/-- A sample inside the 0.1 deadzone: mapped displacement (1/20, 1/20). -/
def smallJoy : InputSample := ⟨[1/20, 1/20, 0], [true, false]⟩

/-- A sample whose enable button (index 0) is released. -/
def offJoy : InputSample := ⟨[1, 0, 1/2], [false, false]⟩

/-- A backward-driving sample: mapped x is -1/2, mapped yaw is 3/10. -/
def revJoy : InputSample := ⟨[-(1/2), 0, 3/10], [true, false]⟩

/-- A forward-driving sample: mapped x is 1/2, mapped yaw is 3/10. -/
def fwdJoy : InputSample := ⟨[1/2, 0, 3/10], [true, false]⟩

/-- A start-of-process state: both static locals not yet initialized,
disable flag armed. -/
def st0 : NodeState :=
  { sent_disable_msg := true, pitch := 0, yaw := 0, last_time := 0,
    joint_init := false, last_goal_time := 0, goal_init := false }

/-- A state in which both static locals have been initialized to time
0. -/
def stReady : NodeState := { st0 with joint_init := true, goal_init := true }

/-- C1: getVal returns 0 when the channel is absent from the axis map,
mapped to the sentinel -1, absent from the scale map, or when the axis
list is too short for the mapped index; in every other case (the lookups
succeed and the index is a valid nonnegative position) it returns the
indexed axis value times the scale. getVal is a pure function of its
arguments by construction. -/
theorem getVal_spec :
    (∀ joy_msg am sm f, List.lookup f am = none →
      getVal joy_msg am sm f = 0) ∧
    (∀ joy_msg am sm f, List.lookup f am = some (-1) →
      getVal joy_msg am sm f = 0) ∧
    (∀ joy_msg am sm f, List.lookup f sm = none →
      getVal joy_msg am sm f = 0) ∧
    (∀ (joy_msg : InputSample) am sm f idx, List.lookup f am = some idx →
      (joy_msg.axes.length : Int) ≤ idx →
      getVal joy_msg am sm f = 0) ∧
    (∀ (joy_msg : InputSample) am sm f idx scale,
      List.lookup f am = some idx → List.lookup f sm = some scale →
      idx ≠ -1 → 0 ≤ idx → idx < (joy_msg.axes.length : Int) →
      getVal joy_msg am sm f = joy_msg.axes.getD idx.toNat 0 * scale) := by
  refine ⟨?_, ?_, ?_, ?_, ?_⟩
  · intro joy_msg am sm f h
    simp [getVal, h]
  · intro joy_msg am sm f h
    cases hs : List.lookup f sm <;> simp [getVal, h, hs]
  · intro joy_msg am sm f h
    cases ha : List.lookup f am <;> simp [getVal, h, ha]
  · intro joy_msg am sm f idx h hlen
    cases hs : List.lookup f sm <;> simp [getVal, h, hs, hlen]
  · intro joy_msg am sm f idx scale ha hs hne hnn hlt
    simp [getVal, ha, hs, hne, not_le.mpr hlt]

/-- Witness for C1: a concrete in-range resolution and each of the four
zero cases. -/
theorem getVal_spec_witness :
    getVal ⟨[4, 7], []⟩ [("x", 1)] [("x", 3)] "x" = 7 * 3 ∧
    getVal ⟨[4, 7], []⟩ [("y", 1)] [("y", 3)] "x" = 0 ∧
    getVal ⟨[4, 7], []⟩ [("x", -1)] [("x", 3)] "x" = 0 ∧
    getVal ⟨[4, 7], []⟩ [("x", 1)] [("y", 3)] "x" = 0 ∧
    getVal ⟨[4, 7], []⟩ [("x", 5)] [("x", 3)] "x" = 0 := by
  refine ⟨?_, ?_, ?_, ?_, ?_⟩
  · have h := getVal_spec.2.2.2.2 ⟨[4, 7], []⟩ [("x", 1)] [("x", 3)] "x" 1 3
      (by decide) (by decide) (by decide) (by decide) (by decide)
    simpa using h
  · exact getVal_spec.1 ⟨[4, 7], []⟩ [("y", 1)] [("y", 3)] "x" (by decide)
  · exact getVal_spec.2.1 ⟨[4, 7], []⟩ [("x", -1)] [("x", 3)] "x" (by decide)
  · exact getVal_spec.2.2.1 ⟨[4, 7], []⟩ [("x", 1)] [("y", 3)] "x" (by decide)
  · exact getVal_spec.2.2.2.1 ⟨[4, 7], []⟩ [("x", 5)] [("x", 3)] "x" 5 (by decide)
      (by decide)

/-- An enabled sample dispatches to sendCmdVelMsg with the profile of
its classification. -/
theorem joyCallback_enabled_eq (cfg : Config) (joy : InputSample) (t : ℚ)
    (tf : TFLookup) (st : NodeState) (h : classify cfg joy ≠ EnableState.Disabled) :
    joyCallback cfg joy t tf st =
      sendCmdVelMsg cfg joy (profileOf (classify cfg joy)) t tf st := by
  cases hc : classify cfg joy
  · exact absurd hc h
  · simp [joyCallback, hc, profileOf]
  · simp [joyCallback, hc, profileOf]

/-- A Disabled sample with the flag armed sends the zero command and
clears the flag. -/
theorem joyCallback_disabled_armed (cfg : Config) (joy : InputSample) (t : ℚ)
    (tf : TFLookup) (st : NodeState) (h : classify cfg joy = EnableState.Disabled)
    (ha : st.sent_disable_msg = true) :
    joyCallback cfg joy t tf st =
      ({ st with sent_disable_msg := false }, sendZeroCommand cfg t) := by
  simp [joyCallback, h, ha]

/-- A Disabled sample with the flag cleared does nothing. -/
theorem joyCallback_disabled_unarmed (cfg : Config) (joy : InputSample) (t : ℚ)
    (tf : TFLookup) (st : NodeState) (h : classify cfg joy = EnableState.Disabled)
    (ha : st.sent_disable_msg = false) :
    joyCallback cfg joy t tf st = (st, []) := by
  simp [joyCallback, h, ha]

/-- sendZeroCommand emits exactly one zero velocity command. -/
theorem stopCount_sendZeroCommand (cfg : Config) (t : ℚ) :
    stopCount (sendZeroCommand cfg t) = 1 := by
  unfold stopCount sendZeroCommand
  split <;> simp

/-- From an unarmed state, a run of Disabled samples changes nothing and
emits nothing. -/
theorem runList_disabled_unarmed (cfg : Config)
    (ds : List (InputSample × ℚ × TFLookup)) :
    ∀ st : NodeState, st.sent_disable_msg = false →
      (∀ i ∈ ds, classify cfg i.1 = EnableState.Disabled) →
      runList cfg st ds = (st, []) := by
  induction ds with
  | nil => intro st _ _; rfl
  | cons i rest ih =>
    intro st ha hd
    have hstep := joyCallback_disabled_unarmed cfg i.1 i.2.1 i.2.2 st
      (hd i (List.mem_cons_self i rest)) ha
    have hrest := ih st ha fun j hj => hd j (List.mem_cons_of_mem i hj)
    simp [runList, hstep, hrest]

/-- sendGoalPoseAction never touches the gimbal integrator state. -/
theorem sendGoalPoseAction_gimbal_frame (cfg : Config) (joy : InputSample)
    (wm : String) (t : ℚ) (tf : TFLookup) (st : NodeState) :
    (sendGoalPoseAction cfg joy wm t tf st).1.pitch = st.pitch ∧
    (sendGoalPoseAction cfg joy wm t tf st).1.yaw = st.yaw ∧
    (sendGoalPoseAction cfg joy wm t tf st).1.last_time = st.last_time ∧
    (sendGoalPoseAction cfg joy wm t tf st).1.joint_init = st.joint_init := by
  cases tf <;> simp only [sendGoalPoseAction] <;> split_ifs <;> simp

/-- fillJointStateMsg never touches the goal throttle state or the
disable flag. -/
theorem fillJointStateMsg_goal_frame (cfg : Config) (joy : InputSample)
    (wm : String) (t : ℚ) (st : NodeState) :
    (fillJointStateMsg cfg joy wm t st).1.goal_init = st.goal_init ∧
    (fillJointStateMsg cfg joy wm t st).1.last_goal_time = st.last_goal_time ∧
    (fillJointStateMsg cfg joy wm t st).1.sent_disable_msg = st.sent_disable_msg := by
  simp [fillJointStateMsg]

/-- The gimbal fields of the state after sendCmdVelMsg: one integration
step over the elapsed time since the previous invocation (zero on the
first invocation), with the timestamp advanced to the current time and
the disable flag re-armed. -/
theorem sendCmdVelMsg_gimbal (cfg : Config) (joy : InputSample) (wm : String)
    (t : ℚ) (tf : TFLookup) (st : NodeState) :
    (sendCmdVelMsg cfg joy wm t tf st).1.pitch =
      st.pitch + getVal joy cfg.axis_gimbal_map (gimbalScale cfg wm) ("pitch") *
        (t - (if st.joint_init then st.last_time else t)) ∧
    (sendCmdVelMsg cfg joy wm t tf st).1.yaw =
      st.yaw + getVal joy cfg.axis_gimbal_map (gimbalScale cfg wm) ("yaw") *
        (t - (if st.joint_init then st.last_time else t)) ∧
    (sendCmdVelMsg cfg joy wm t tf st).1.last_time = t ∧
    (sendCmdVelMsg cfg joy wm t tf st).1.joint_init = true ∧
    (sendCmdVelMsg cfg joy wm t tf st).1.sent_disable_msg = true := by
  obtain ⟨hp, hy, hl, hj⟩ := sendGoalPoseAction_gimbal_frame cfg joy wm t tf st
  by_cases hm : cfg.control_mode = "manual_control" <;>
    simp [sendCmdVelMsg, fillJointStateMsg, hm, hp, hy, hl, hj]

/-- C4: the enable state machine classification: Turbo exactly when a
nonnegative turbo button index is configured, in range and pressed;
otherwise Normal exactly when no enable button is required or the enable
button is in range and pressed; otherwise Disabled. Stated for a
nonnegative enable button index (C++ vector indexing is undefined for a
negative one). -/
theorem classify_spec (cfg : Config) (joy : InputSample)
    (heb : 0 ≤ cfg.enable_button) :
    (classify cfg joy = EnableState.Turbo ↔
      (0 ≤ cfg.enable_turbo_button ∧
        cfg.enable_turbo_button.toNat < joy.buttons.length ∧
        joy.buttons.getD cfg.enable_turbo_button.toNat false = true)) ∧
    (classify cfg joy = EnableState.Normal ↔
      (¬(0 ≤ cfg.enable_turbo_button ∧
          cfg.enable_turbo_button.toNat < joy.buttons.length ∧
          joy.buttons.getD cfg.enable_turbo_button.toNat false = true) ∧
        (cfg.require_enable_button = false ∨
          (cfg.enable_button.toNat < joy.buttons.length ∧
            joy.buttons.getD cfg.enable_button.toNat false = true)))) ∧
    (classify cfg joy = EnableState.Disabled ↔
      (¬(0 ≤ cfg.enable_turbo_button ∧
          cfg.enable_turbo_button.toNat < joy.buttons.length ∧
          joy.buttons.getD cfg.enable_turbo_button.toNat false = true) ∧
        ¬(cfg.require_enable_button = false ∨
          (cfg.enable_button.toNat < joy.buttons.length ∧
            joy.buttons.getD cfg.enable_button.toNat false = true)))) := by
  have hT : (0 ≤ cfg.enable_turbo_button ∧
      cfg.enable_turbo_button < (joy.buttons.length : Int) ∧
      joy.buttons.getD cfg.enable_turbo_button.toNat false = true) ↔
      (0 ≤ cfg.enable_turbo_button ∧
      cfg.enable_turbo_button.toNat < joy.buttons.length ∧
      joy.buttons.getD cfg.enable_turbo_button.toNat false = true) := by
    constructor <;> rintro ⟨h1, h2, h3⟩ <;> exact ⟨h1, by omega, h3⟩
  have hN : (¬(cfg.require_enable_button = true) ∨
      (cfg.enable_button < (joy.buttons.length : Int) ∧
        joy.buttons.getD cfg.enable_button.toNat false = true)) ↔
      (cfg.require_enable_button = false ∨
      (cfg.enable_button.toNat < joy.buttons.length ∧
        joy.buttons.getD cfg.enable_button.toNat false = true)) := by
    constructor <;> rintro (h | ⟨h1, h2⟩)
    · exact Or.inl (by simpa using h)
    · exact Or.inr ⟨by omega, h2⟩
    · exact Or.inl (by simp [h])
    · exact Or.inr ⟨by omega, h2⟩
  rw [← hT, ← hN]
  by_cases h1 : (0 ≤ cfg.enable_turbo_button ∧
      cfg.enable_turbo_button < (joy.buttons.length : Int) ∧
      joy.buttons.getD cfg.enable_turbo_button.toNat false = true)
  · have hcl : classify cfg joy = EnableState.Turbo := by
      unfold classify; rw [if_pos h1]
    exact ⟨iff_of_true hcl h1,
      iff_of_false (by simp [hcl]) fun hr => hr.1 h1,
      iff_of_false (by simp [hcl]) fun hr => hr.1 h1⟩
  · by_cases h2 : (¬(cfg.require_enable_button = true) ∨
        (cfg.enable_button < (joy.buttons.length : Int) ∧
          joy.buttons.getD cfg.enable_button.toNat false = true))
    · have hcl : classify cfg joy = EnableState.Normal := by
        unfold classify; rw [if_neg h1, if_pos h2]
      exact ⟨iff_of_false (by simp [hcl]) fun hr => h1 hr,
        iff_of_true hcl ⟨h1, h2⟩,
        iff_of_false (by simp [hcl]) fun hr => hr.2 h2⟩
    · have hcl : classify cfg joy = EnableState.Disabled := by
        unfold classify; rw [if_neg h1, if_neg h2]
      exact ⟨iff_of_false (by simp [hcl]) fun hr => h1 hr,
        iff_of_false (by simp [hcl]) fun hr => h2 hr.2,
        iff_of_true hcl ⟨h1, h2⟩⟩

/-- Witness for C4: with a turbo button on index 1 and the enable button
on index 0 released, a sample pressing only the turbo button is Turbo; a
sample pressing neither is Disabled; with no enable button required an
arbitrary sample is Normal. -/
theorem classify_spec_witness :
    classify { reqCfg with enable_turbo_button := 1 } ⟨[], [false, true]⟩ =
      EnableState.Turbo ∧
    classify reqCfg offJoy = EnableState.Disabled ∧
    classify manualCfg offJoy = EnableState.Normal := by
  refine ⟨?_, ?_, ?_⟩
  · exact (classify_spec { reqCfg with enable_turbo_button := 1 }
      ⟨[], [false, true]⟩ (by decide)).1.mpr (by decide)
  · exact (classify_spec reqCfg offJoy (by decide)).2.2.mpr (by decide)
  · exact (classify_spec manualCfg offJoy (by decide)).2.1.mpr (by decide)

/-- C8: the composed velocity command: linear fields are the mapped
chassis x, y, z channels; angular x and y are the mapped gimbal roll and
pitch; angular z is the mapped gimbal yaw, negated exactly when
inverted_reverse is set and the linear x value is negative; in
particular a mapped x of -1/2 with mapped yaw 3/10 under
inverted_reverse gives angular z = -(3/10), while mapped x of 1/2 gives
3/10. -/
theorem fillCmdVelMsg_spec :
    (∀ (cfg : Config) (joy : InputSample) (wm : String),
      (fillCmdVelMsg cfg joy wm).lin_x =
        getVal joy cfg.axis_chassis_map (chassisScale cfg wm) ("x") ∧
      (fillCmdVelMsg cfg joy wm).lin_y =
        getVal joy cfg.axis_chassis_map (chassisScale cfg wm) ("y") ∧
      (fillCmdVelMsg cfg joy wm).lin_z =
        getVal joy cfg.axis_chassis_map (chassisScale cfg wm) ("z") ∧
      (fillCmdVelMsg cfg joy wm).ang_y =
        getVal joy cfg.axis_gimbal_map (gimbalScale cfg wm) ("pitch") ∧
      (fillCmdVelMsg cfg joy wm).ang_x =
        getVal joy cfg.axis_gimbal_map (gimbalScale cfg wm) ("roll") ∧
      (fillCmdVelMsg cfg joy wm).ang_z =
        (if cfg.inverted_reverse = true ∧
            getVal joy cfg.axis_chassis_map (chassisScale cfg wm) ("x") < 0
          then -getVal joy cfg.axis_gimbal_map (gimbalScale cfg wm) ("yaw")
          else getVal joy cfg.axis_gimbal_map (gimbalScale cfg wm) ("yaw"))) ∧
    (∀ (cfg : Config) (joy : InputSample) (wm : String),
      cfg.inverted_reverse = true →
      getVal joy cfg.axis_chassis_map (chassisScale cfg wm) ("x") = -(1/2) →
      getVal joy cfg.axis_gimbal_map (gimbalScale cfg wm) ("yaw") = 3/10 →
      (fillCmdVelMsg cfg joy wm).ang_z = -(3/10)) ∧
    (∀ (cfg : Config) (joy : InputSample) (wm : String),
      cfg.inverted_reverse = true →
      getVal joy cfg.axis_chassis_map (chassisScale cfg wm) ("x") = 1/2 →
      getVal joy cfg.axis_gimbal_map (gimbalScale cfg wm) ("yaw") = 3/10 →
      (fillCmdVelMsg cfg joy wm).ang_z = 3/10) := by
  refine ⟨?_, ?_, ?_⟩
  · intro cfg joy wm
    refine ⟨rfl, rfl, rfl, rfl, rfl, ?_⟩
    by_cases hinv : cfg.inverted_reverse <;>
      by_cases hx : getVal joy cfg.axis_chassis_map (chassisScale cfg wm) ("x") < 0 <;>
      simp [fillCmdVelMsg, hinv, hx]
  · intro cfg joy wm hinv hx hyaw
    have hneg : getVal joy cfg.axis_chassis_map (chassisScale cfg wm) ("x") < 0 := by
      rw [hx]; norm_num
    simp [fillCmdVelMsg, hinv, hx, hyaw, hneg]
  · intro cfg joy wm hinv hx hyaw
    have hpos : ¬getVal joy cfg.axis_chassis_map (chassisScale cfg wm) ("x") < 0 := by
      rw [hx]; norm_num
    simp [fillCmdVelMsg, hinv, hx, hyaw, hpos]

/-- Witness for C8: the reverse and forward samples under the concrete
manual configuration. -/
theorem fillCmdVelMsg_spec_witness :
    (fillCmdVelMsg manualCfg revJoy ("normal")).ang_z = -(3/10) ∧
    (fillCmdVelMsg manualCfg fwdJoy ("normal")).ang_z = 3/10 := by
  constructor
  · exact fillCmdVelMsg_spec.2.1 manualCfg revJoy ("normal") (by decide)
      (by norm_num [getVal, manualCfg, revJoy, chassisScale])
      (by norm_num [getVal, manualCfg, revJoy, gimbalScale, show Int.toNat 2 = 2 from rfl])
  · exact fillCmdVelMsg_spec.2.2 manualCfg fwdJoy ("normal") (by decide)
      (by norm_num [getVal, manualCfg, fwdJoy, chassisScale])
      (by norm_num [getVal, manualCfg, fwdJoy, gimbalScale, show Int.toNat 2 = 2 from rfl])

/-- C2: every enabled sample re-arms the disable-edge flag; a Disabled
sample with the flag armed emits exactly one zero velocity command and
clears the flag; and after any enabled sample, a nonempty run of
Disabled samples emits exactly one zero velocity command in total, so
remaining Disabled produces no further stop commands. -/
theorem disable_edge_spec :
    (∀ (cfg : Config) (st : NodeState) (joy : InputSample) (t : ℚ) (tf : TFLookup),
      classify cfg joy ≠ EnableState.Disabled →
      (joyCallback cfg joy t tf st).1.sent_disable_msg = true) ∧
    (∀ (cfg : Config) (st : NodeState) (joy : InputSample) (t : ℚ) (tf : TFLookup),
      classify cfg joy = EnableState.Disabled → st.sent_disable_msg = true →
      stopCount (joyCallback cfg joy t tf st).2 = 1 ∧
      (joyCallback cfg joy t tf st).1.sent_disable_msg = false) ∧
    (∀ (cfg : Config) (st : NodeState) (e : InputSample × ℚ × TFLookup)
        (ds : List (InputSample × ℚ × TFLookup)),
      classify cfg e.1 ≠ EnableState.Disabled →
      (∀ i ∈ ds, classify cfg i.1 = EnableState.Disabled) → ds ≠ [] →
      stopCount (runList cfg (joyCallback cfg e.1 e.2.1 e.2.2 st).1 ds).2 = 1) := by
  refine ⟨?_, ?_, ?_⟩
  · intro cfg st joy t tf h
    rw [joyCallback_enabled_eq cfg joy t tf st h]
    exact (sendCmdVelMsg_gimbal cfg joy (profileOf (classify cfg joy)) t tf st).2.2.2.2
  · intro cfg st joy t tf h ha
    rw [joyCallback_disabled_armed cfg joy t tf st h ha]
    exact ⟨stopCount_sendZeroCommand cfg t, rfl⟩
  · intro cfg st e ds he hds hne
    have h1 : (joyCallback cfg e.1 e.2.1 e.2.2 st).1.sent_disable_msg = true := by
      rw [joyCallback_enabled_eq cfg e.1 e.2.1 e.2.2 st he]
      exact (sendCmdVelMsg_gimbal cfg e.1 (profileOf (classify cfg e.1))
        e.2.1 e.2.2 st).2.2.2.2
    cases ds with
    | nil => exact absurd rfl hne
    | cons d rest =>
      have hd1 : classify cfg d.1 = EnableState.Disabled :=
        hds d (List.mem_cons_self d rest)
      have hstep := joyCallback_disabled_armed cfg d.1 d.2.1 d.2.2
        (joyCallback cfg e.1 e.2.1 e.2.2 st).1 hd1 h1
      have hrest := runList_disabled_unarmed cfg rest
        { (joyCallback cfg e.1 e.2.1 e.2.2 st).1 with sent_disable_msg := false }
        rfl (fun j hj => hds j (List.mem_cons_of_mem d hj))
      simp only [runList, hstep, hrest]
      simpa using stopCount_sendZeroCommand cfg d.2.1

/-- Witness for C2: an enabled sample followed by two Disabled samples
under the enable-button configuration emits exactly one stop command. -/
theorem disable_edge_spec_witness :
    stopCount (runList reqCfg (joyCallback reqCfg bigJoy 0 none st0).1
      [(offJoy, 1, none), (offJoy, 2, none)]).2 = 1 := by
  exact disable_edge_spec.2.2 reqCfg st0 (bigJoy, 0, none)
    [(offJoy, 1, none), (offJoy, 2, none)] (by decide) (by decide)
    (List.cons_ne_nil _ _)

/-- C9: on the disable edge, if the control mode is auto_control
(goal-directed) a cancellation of all goals before the current time is
emitted, and the gimbal integrator state (pitch, yaw, last update time,
initialization flag) is untouched. -/
theorem disable_cancel_spec :
    ∀ (cfg : Config) (st : NodeState) (joy : InputSample) (t : ℚ) (tf : TFLookup),
      classify cfg joy = EnableState.Disabled → st.sent_disable_msg = true →
      (cfg.control_mode = "auto_control" →
        Emission.cancelGoalsBefore t ∈ (joyCallback cfg joy t tf st).2) ∧
      (joyCallback cfg joy t tf st).1.pitch = st.pitch ∧
      (joyCallback cfg joy t tf st).1.yaw = st.yaw ∧
      (joyCallback cfg joy t tf st).1.last_time = st.last_time ∧
      (joyCallback cfg joy t tf st).1.joint_init = st.joint_init := by
  intro cfg st joy t tf h ha
  rw [joyCallback_disabled_armed cfg joy t tf st h ha]
  refine ⟨fun hm => ?_, rfl, rfl, rfl, rfl⟩
  simp [sendZeroCommand, hm]

/-- Witness for C9: the disabled sample in the goal-directed
configuration requests cancellation and leaves the accumulated yaw
unchanged. -/
theorem disable_cancel_spec_witness :
    Emission.cancelGoalsBefore 5 ∈ (joyCallback autoReqCfg offJoy 5 none st0).2 ∧
    (joyCallback autoReqCfg offJoy 5 none st0).1.yaw = st0.yaw := by
  have h := disable_cancel_spec autoReqCfg st0 offJoy 5 none (by decide) (by decide)
  exact ⟨h.1 (by decide), h.2.2.1⟩

/-- In a non-manual control mode, sendCmdVelMsg runs the goal pose
action and then the joint state publication. -/
theorem sendCmdVelMsg_auto (cfg : Config) (joy : InputSample) (wm : String)
    (t : ℚ) (tf : TFLookup) (st : NodeState)
    (hm : cfg.control_mode = "auto_control") :
    sendCmdVelMsg cfg joy wm t tf st =
      ({ (fillJointStateMsg cfg joy wm t
            (sendGoalPoseAction cfg joy wm t tf st).1).1 with
          sent_disable_msg := true },
        (sendGoalPoseAction cfg joy wm t tf st).2 ++
          [(fillJointStateMsg cfg joy wm t
            (sendGoalPoseAction cfg joy wm t tf st).1).2]) := by
  have hne : cfg.control_mode ≠ "manual_control" := by rw [hm]; decide
  simp only [sendCmdVelMsg]
  rw [if_neg hne]

/-- A sample inside the deadzone: sendGoalPoseAction only sets the
disable flag. -/
theorem sendGoalPoseAction_deadzone (cfg : Config) (joy : InputSample)
    (wm : String) (t : ℚ) (tf : TFLookup) (st : NodeState)
    (h : |getVal joy cfg.axis_chassis_map (chassisScale cfg wm) ("x")| ≤ 1/10 ∧
      |getVal joy cfg.axis_chassis_map (chassisScale cfg wm) ("y")| ≤ 1/10) :
    sendGoalPoseAction cfg joy wm t tf st =
      ({ st with sent_disable_msg := true }, []) := by
  simp only [sendGoalPoseAction]
  rw [if_pos h]

/-- A failed transform lookup outside the deadzone: sendGoalPoseAction
returns before reaching the throttle state. -/
theorem sendGoalPoseAction_tfNone (cfg : Config) (joy : InputSample)
    (wm : String) (t : ℚ) (st : NodeState)
    (h : ¬(|getVal joy cfg.axis_chassis_map (chassisScale cfg wm) ("x")| ≤ 1/10 ∧
      |getVal joy cfg.axis_chassis_map (chassisScale cfg wm) ("y")| ≤ 1/10)) :
    sendGoalPoseAction cfg joy wm t none st = (st, []) := by
  simp only [sendGoalPoseAction]
  rw [if_neg h]

/-- First arrival at the throttle: the static last_goal_time is
initialized to the current time, so the elapsed-time test fails and no
goal is submitted. -/
theorem sendGoalPoseAction_firstReach (cfg : Config) (joy : InputSample)
    (wm : String) (t : ℚ) (f : (ℚ × ℚ) → (ℚ × ℚ)) (st : NodeState)
    (hdz : ¬(|getVal joy cfg.axis_chassis_map (chassisScale cfg wm) ("x")| ≤ 1/10 ∧
      |getVal joy cfg.axis_chassis_map (chassisScale cfg wm) ("y")| ≤ 1/10))
    (hgi : st.goal_init = false) :
    sendGoalPoseAction cfg joy wm t (some f) st =
      ({ st with goal_init := true, last_goal_time := t }, []) := by
  have hlt : ¬((1 : ℚ)/4 ≤ t - t) := by norm_num
  simp only [sendGoalPoseAction]
  rw [if_neg hdz]
  simp [hgi, hlt]

/-- Not enough time elapsed since the last submission: no goal is
submitted and the timestamp is unchanged. -/
theorem sendGoalPoseAction_throttled (cfg : Config) (joy : InputSample)
    (wm : String) (t : ℚ) (f : (ℚ × ℚ) → (ℚ × ℚ)) (st : NodeState)
    (hdz : ¬(|getVal joy cfg.axis_chassis_map (chassisScale cfg wm) ("x")| ≤ 1/10 ∧
      |getVal joy cfg.axis_chassis_map (chassisScale cfg wm) ("y")| ≤ 1/10))
    (hgi : st.goal_init = true) (hth : t - st.last_goal_time < 1/4) :
    sendGoalPoseAction cfg joy wm t (some f) st =
      ({ st with goal_init := true, last_goal_time := st.last_goal_time }, []) := by
  simp only [sendGoalPoseAction]
  rw [if_neg hdz]
  simp [hgi, not_le.mpr hth]
  linarith

/-- At least a quarter second elapsed: the transformed goal is submitted
and the timestamp advances to the current time. -/
theorem sendGoalPoseAction_submit (cfg : Config) (joy : InputSample)
    (wm : String) (t : ℚ) (f : (ℚ × ℚ) → (ℚ × ℚ)) (st : NodeState)
    (hdz : ¬(|getVal joy cfg.axis_chassis_map (chassisScale cfg wm) ("x")| ≤ 1/10 ∧
      |getVal joy cfg.axis_chassis_map (chassisScale cfg wm) ("y")| ≤ 1/10))
    (hgi : st.goal_init = true) (hth : 1/4 ≤ t - st.last_goal_time) :
    sendGoalPoseAction cfg joy wm t (some f) st =
      ({ st with goal_init := true, last_goal_time := t },
        [Emission.goal
          (f (getVal joy cfg.axis_chassis_map (chassisScale cfg wm) ("x"),
            getVal joy cfg.axis_chassis_map (chassisScale cfg wm) ("y"))).1
          (f (getVal joy cfg.axis_chassis_map (chassisScale cfg wm) ("x"),
            getVal joy cfg.axis_chassis_map (chassisScale cfg wm) ("y"))).2]) := by
  simp only [sendGoalPoseAction]
  rw [if_neg hdz]
  simp [hgi, hth]
  linarith

/-- An enabled sample in auto_control mode: one goal pose action step
followed by the joint state publication. -/
theorem joyCallback_auto_eq (cfg : Config) (joy : InputSample) (t : ℚ)
    (tf : TFLookup) (st : NodeState)
    (hm : cfg.control_mode = "auto_control")
    (hcl : classify cfg joy ≠ EnableState.Disabled) :
    joyCallback cfg joy t tf st =
      ({ (fillJointStateMsg cfg joy (profileOf (classify cfg joy)) t
            (sendGoalPoseAction cfg joy (profileOf (classify cfg joy)) t tf st).1).1 with
          sent_disable_msg := true },
        (sendGoalPoseAction cfg joy (profileOf (classify cfg joy)) t tf st).2 ++
          [(fillJointStateMsg cfg joy (profileOf (classify cfg joy)) t
            (sendGoalPoseAction cfg joy (profileOf (classify cfg joy)) t tf st).1).2]) := by
  rw [joyCallback_enabled_eq cfg joy t tf st hcl]
  exact sendCmdVelMsg_auto cfg joy (profileOf (classify cfg joy)) t tf st hm

/-- C5: in goal-directed mode an enabled sample whose mapped chassis x
and y are both within the 0.1 deadzone submits no navigation goal and
leaves the disable-edge flag set true. -/
theorem deadzone_spec :
    ∀ (cfg : Config) (st : NodeState) (joy : InputSample) (t : ℚ) (tf : TFLookup),
      cfg.control_mode = "auto_control" →
      classify cfg joy ≠ EnableState.Disabled →
      |getVal joy cfg.axis_chassis_map
        (chassisScale cfg (profileOf (classify cfg joy))) ("x")| ≤ 1/10 →
      |getVal joy cfg.axis_chassis_map
        (chassisScale cfg (profileOf (classify cfg joy))) ("y")| ≤ 1/10 →
      goalCount (joyCallback cfg joy t tf st).2 = 0 ∧
      (joyCallback cfg joy t tf st).1.sent_disable_msg = true := by
  intro cfg st joy t tf hm hcl hx hy
  rw [joyCallback_auto_eq cfg joy t tf st hm hcl,
    sendGoalPoseAction_deadzone cfg joy (profileOf (classify cfg joy)) t tf st ⟨hx, hy⟩]
  exact ⟨by simp [goalCount, isGoal, fillJointStateMsg], rfl⟩

/-- Witness for C5: the sample with mapped displacement (1/20, 1/20)
under the goal-directed configuration submits no goal. -/
theorem deadzone_spec_witness :
    goalCount (joyCallback autoCfg smallJoy 1 none st0).2 = 0 ∧
    (joyCallback autoCfg smallJoy 1 none st0).1.sent_disable_msg = true := by
  have hcl : classify autoCfg smallJoy = EnableState.Normal := by decide
  exact deadzone_spec autoCfg st0 smallJoy 1 none (by decide)
    (by simp [hcl])
    (by rw [hcl]; norm_num [profileOf, getVal, autoCfg, manualCfg, chassisScale,
      smallJoy, show Int.toNat 0 = 0 from rfl, abs_le])
    (by rw [hcl]; norm_num [profileOf, getVal, autoCfg, manualCfg, chassisScale,
      smallJoy, List.lookup, show (("y" : String) == "x") = false by decide,
      show Int.toNat 1 = 1 from rfl, abs_le])

/-- C6: in goal-directed mode, when the transform lookup fails for an
enabled sample outside the deadzone, no goal is submitted, the throttle
timestamp and its initialization flag are unchanged, the joint state
message is still the sole emission of the cycle, and the disable flag is
re-armed (the step is a total function, so processing continues with the
next sample). -/
theorem transform_failure_spec :
    ∀ (cfg : Config) (st : NodeState) (joy : InputSample) (t : ℚ),
      cfg.control_mode = "auto_control" →
      classify cfg joy ≠ EnableState.Disabled →
      ¬(|getVal joy cfg.axis_chassis_map
          (chassisScale cfg (profileOf (classify cfg joy))) ("x")| ≤ 1/10 ∧
        |getVal joy cfg.axis_chassis_map
          (chassisScale cfg (profileOf (classify cfg joy))) ("y")| ≤ 1/10) →
      goalCount (joyCallback cfg joy t none st).2 = 0 ∧
      (joyCallback cfg joy t none st).1.last_goal_time = st.last_goal_time ∧
      (joyCallback cfg joy t none st).1.goal_init = st.goal_init ∧
      (joyCallback cfg joy t none st).2 =
        [Emission.jointState (joyCallback cfg joy t none st).1.pitch
          (joyCallback cfg joy t none st).1.yaw] ∧
      (joyCallback cfg joy t none st).1.sent_disable_msg = true := by
  intro cfg st joy t hm hcl hdz
  rw [joyCallback_auto_eq cfg joy t none st hm hcl,
    sendGoalPoseAction_tfNone cfg joy (profileOf (classify cfg joy)) t st hdz]
  refine ⟨by simp [goalCount, isGoal, fillJointStateMsg], rfl, rfl, ?_, rfl⟩
  simp [fillJointStateMsg]

/-- Witness for C6: the large-displacement sample with a failed
transform lookup emits only the joint state message and keeps the
throttle state of the fresh process state. -/
theorem transform_failure_spec_witness :
    goalCount (joyCallback autoCfg bigJoy 1 none st0).2 = 0 ∧
    (joyCallback autoCfg bigJoy 1 none st0).1.last_goal_time = st0.last_goal_time := by
  have hcl : classify autoCfg bigJoy = EnableState.Normal := by decide
  have h := transform_failure_spec autoCfg st0 bigJoy 1 (by decide)
    (by simp [hcl])
    (by rw [hcl]; norm_num [profileOf, getVal, autoCfg, manualCfg, chassisScale,
      bigJoy, show Int.toNat 0 = 0 from rfl])
  exact ⟨h.1, h.2.1⟩

/-- Goal submissions are counted additively over concatenated emission
lists. -/
theorem goalCount_append (a b : List Emission) :
    goalCount (a ++ b) = goalCount a + goalCount b := by
  simp [goalCount, List.countP_append]

/-- C10: in goal-directed mode, the first sample that reaches the
submission stage (enabled, outside the deadzone, transform succeeds)
while the throttle static is still uninitialized submits no goal and
initializes the throttle timestamp to the current time; and any sample
that does not reach the submission stage (disabled, inside the deadzone,
or failed transform) leaves the throttle static uninitialized, so the
first reaching sample after process start indeed finds it
uninitialized. -/
theorem first_submission_spec :
    (∀ (cfg : Config) (st : NodeState) (joy : InputSample) (t : ℚ)
        (f : (ℚ × ℚ) → (ℚ × ℚ)),
      cfg.control_mode = "auto_control" →
      classify cfg joy ≠ EnableState.Disabled →
      st.goal_init = false →
      ¬(|getVal joy cfg.axis_chassis_map
          (chassisScale cfg (profileOf (classify cfg joy))) ("x")| ≤ 1/10 ∧
        |getVal joy cfg.axis_chassis_map
          (chassisScale cfg (profileOf (classify cfg joy))) ("y")| ≤ 1/10) →
      goalCount (joyCallback cfg joy t (some f) st).2 = 0 ∧
      (joyCallback cfg joy t (some f) st).1.goal_init = true ∧
      (joyCallback cfg joy t (some f) st).1.last_goal_time = t) ∧
    (∀ (cfg : Config) (st : NodeState) (joy : InputSample) (t : ℚ) (tf : TFLookup),
      cfg.control_mode = "auto_control" →
      st.goal_init = false →
      (classify cfg joy = EnableState.Disabled ∨
        (|getVal joy cfg.axis_chassis_map
            (chassisScale cfg (profileOf (classify cfg joy))) ("x")| ≤ 1/10 ∧
          |getVal joy cfg.axis_chassis_map
            (chassisScale cfg (profileOf (classify cfg joy))) ("y")| ≤ 1/10) ∨
        tf = none) →
      (joyCallback cfg joy t tf st).1.goal_init = false) := by
  constructor
  · intro cfg st joy t f hm hcl hgi hdz
    rw [joyCallback_auto_eq cfg joy t (some f) st hm hcl,
      sendGoalPoseAction_firstReach cfg joy (profileOf (classify cfg joy)) t f st hdz hgi]
    exact ⟨by simp [goalCount, isGoal, fillJointStateMsg],
      by simp [fillJointStateMsg], by simp [fillJointStateMsg]⟩
  · intro cfg st joy t tf hm hgi hcase
    by_cases hcl : classify cfg joy = EnableState.Disabled
    · cases hs : st.sent_disable_msg
      · rw [joyCallback_disabled_unarmed cfg joy t tf st hcl hs]; exact hgi
      · rw [joyCallback_disabled_armed cfg joy t tf st hcl hs]; exact hgi
    · rcases hcase with hd | hdz | htf
      · exact absurd hd hcl
      · rw [joyCallback_auto_eq cfg joy t tf st hm hcl,
          sendGoalPoseAction_deadzone cfg joy (profileOf (classify cfg joy)) t tf st hdz]
        simpa [fillJointStateMsg] using hgi
      · subst htf
        by_cases hdz : (|getVal joy cfg.axis_chassis_map
            (chassisScale cfg (profileOf (classify cfg joy))) ("x")| ≤ 1/10 ∧
          |getVal joy cfg.axis_chassis_map
            (chassisScale cfg (profileOf (classify cfg joy))) ("y")| ≤ 1/10)
        · rw [joyCallback_auto_eq cfg joy t none st hm hcl,
            sendGoalPoseAction_deadzone cfg joy (profileOf (classify cfg joy)) t none st hdz]
          simpa [fillJointStateMsg] using hgi
        · rw [joyCallback_auto_eq cfg joy t none st hm hcl,
            sendGoalPoseAction_tfNone cfg joy (profileOf (classify cfg joy)) t st hdz]
          simpa [fillJointStateMsg] using hgi

/-- Witness for C10: from the fresh process state, the first
large-displacement enabled sample with a successful transform submits
nothing and sets the throttle timestamp to its arrival time. -/
theorem first_submission_spec_witness :
    goalCount (joyCallback autoCfg bigJoy 1 (some (fun p => p)) st0).2 = 0 ∧
    (joyCallback autoCfg bigJoy 1 (some (fun p => p)) st0).1.last_goal_time = 1 := by
  have hcl : classify autoCfg bigJoy = EnableState.Normal := by decide
  have h := first_submission_spec.1 autoCfg st0 bigJoy 1 (fun p => p) (by decide)
    (by simp [hcl]) (by decide)
    (by rw [hcl]; norm_num [profileOf, getVal, autoCfg, manualCfg, chassisScale,
      bigJoy, show Int.toNat 0 = 0 from rfl])
  exact ⟨h.1, h.2.2⟩

/-- C3: in goal-directed mode with the throttle initialized, an enabled
sample outside the deadzone with a successful transform submits no goal
when less than 0.25 s has elapsed since the last submission (the
timestamp is unchanged and the joint state message is still the sole
emission), submits exactly one goal when at least 0.25 s has elapsed
(advancing the timestamp to the current time); consequently two such
samples 0.1 s apart yield at most one submission and the same samples
0.3 s apart yield two. -/
theorem goal_throttle_spec :
    (∀ (cfg : Config) (st : NodeState) (joy : InputSample) (t : ℚ)
        (f : (ℚ × ℚ) → (ℚ × ℚ)),
      cfg.control_mode = "auto_control" →
      classify cfg joy ≠ EnableState.Disabled →
      ¬(|getVal joy cfg.axis_chassis_map
          (chassisScale cfg (profileOf (classify cfg joy))) ("x")| ≤ 1/10 ∧
        |getVal joy cfg.axis_chassis_map
          (chassisScale cfg (profileOf (classify cfg joy))) ("y")| ≤ 1/10) →
      st.goal_init = true →
      t - st.last_goal_time < 1/4 →
      goalCount (joyCallback cfg joy t (some f) st).2 = 0 ∧
      (joyCallback cfg joy t (some f) st).1.last_goal_time = st.last_goal_time ∧
      (joyCallback cfg joy t (some f) st).2 =
        [Emission.jointState (joyCallback cfg joy t (some f) st).1.pitch
          (joyCallback cfg joy t (some f) st).1.yaw]) ∧
    (∀ (cfg : Config) (st : NodeState) (joy : InputSample) (t : ℚ)
        (f : (ℚ × ℚ) → (ℚ × ℚ)),
      cfg.control_mode = "auto_control" →
      classify cfg joy ≠ EnableState.Disabled →
      ¬(|getVal joy cfg.axis_chassis_map
          (chassisScale cfg (profileOf (classify cfg joy))) ("x")| ≤ 1/10 ∧
        |getVal joy cfg.axis_chassis_map
          (chassisScale cfg (profileOf (classify cfg joy))) ("y")| ≤ 1/10) →
      st.goal_init = true →
      1/4 ≤ t - st.last_goal_time →
      goalCount (joyCallback cfg joy t (some f) st).2 = 1 ∧
      (joyCallback cfg joy t (some f) st).1.last_goal_time = t) ∧
    (∀ (cfg : Config) (st : NodeState) (joy1 joy2 : InputSample) (t1 : ℚ)
        (f1 f2 : (ℚ × ℚ) → (ℚ × ℚ)),
      cfg.control_mode = "auto_control" →
      classify cfg joy1 ≠ EnableState.Disabled →
      classify cfg joy2 ≠ EnableState.Disabled →
      ¬(|getVal joy1 cfg.axis_chassis_map
          (chassisScale cfg (profileOf (classify cfg joy1))) ("x")| ≤ 1/10 ∧
        |getVal joy1 cfg.axis_chassis_map
          (chassisScale cfg (profileOf (classify cfg joy1))) ("y")| ≤ 1/10) →
      ¬(|getVal joy2 cfg.axis_chassis_map
          (chassisScale cfg (profileOf (classify cfg joy2))) ("x")| ≤ 1/10 ∧
        |getVal joy2 cfg.axis_chassis_map
          (chassisScale cfg (profileOf (classify cfg joy2))) ("y")| ≤ 1/10) →
      st.goal_init = true →
      1/4 ≤ t1 - st.last_goal_time →
      goalCount (runList cfg st
        [(joy1, t1, some f1), (joy2, t1 + 1/10, some f2)]).2 ≤ 1) ∧
    (∀ (cfg : Config) (st : NodeState) (joy1 joy2 : InputSample) (t1 : ℚ)
        (f1 f2 : (ℚ × ℚ) → (ℚ × ℚ)),
      cfg.control_mode = "auto_control" →
      classify cfg joy1 ≠ EnableState.Disabled →
      classify cfg joy2 ≠ EnableState.Disabled →
      ¬(|getVal joy1 cfg.axis_chassis_map
          (chassisScale cfg (profileOf (classify cfg joy1))) ("x")| ≤ 1/10 ∧
        |getVal joy1 cfg.axis_chassis_map
          (chassisScale cfg (profileOf (classify cfg joy1))) ("y")| ≤ 1/10) →
      ¬(|getVal joy2 cfg.axis_chassis_map
          (chassisScale cfg (profileOf (classify cfg joy2))) ("x")| ≤ 1/10 ∧
        |getVal joy2 cfg.axis_chassis_map
          (chassisScale cfg (profileOf (classify cfg joy2))) ("y")| ≤ 1/10) →
      st.goal_init = true →
      1/4 ≤ t1 - st.last_goal_time →
      goalCount (runList cfg st
        [(joy1, t1, some f1), (joy2, t1 + 3/10, some f2)]).2 = 2) := by
  have hthrottled : ∀ (cfg : Config) (st : NodeState) (joy : InputSample) (t : ℚ)
      (f : (ℚ × ℚ) → (ℚ × ℚ)),
      cfg.control_mode = "auto_control" →
      classify cfg joy ≠ EnableState.Disabled →
      ¬(|getVal joy cfg.axis_chassis_map
          (chassisScale cfg (profileOf (classify cfg joy))) ("x")| ≤ 1/10 ∧
        |getVal joy cfg.axis_chassis_map
          (chassisScale cfg (profileOf (classify cfg joy))) ("y")| ≤ 1/10) →
      st.goal_init = true →
      t - st.last_goal_time < 1/4 →
      goalCount (joyCallback cfg joy t (some f) st).2 = 0 ∧
      (joyCallback cfg joy t (some f) st).1.last_goal_time = st.last_goal_time ∧
      (joyCallback cfg joy t (some f) st).1.goal_init = true ∧
      (joyCallback cfg joy t (some f) st).2 =
        [Emission.jointState (joyCallback cfg joy t (some f) st).1.pitch
          (joyCallback cfg joy t (some f) st).1.yaw] := by
    intro cfg st joy t f hm hcl hdz hgi hth
    rw [joyCallback_auto_eq cfg joy t (some f) st hm hcl,
      sendGoalPoseAction_throttled cfg joy (profileOf (classify cfg joy)) t f st hdz hgi hth]
    refine ⟨by simp [goalCount, isGoal, fillJointStateMsg],
      by simp [fillJointStateMsg], by simp [fillJointStateMsg], ?_⟩
    simp [fillJointStateMsg]
  have hsubmit : ∀ (cfg : Config) (st : NodeState) (joy : InputSample) (t : ℚ)
      (f : (ℚ × ℚ) → (ℚ × ℚ)),
      cfg.control_mode = "auto_control" →
      classify cfg joy ≠ EnableState.Disabled →
      ¬(|getVal joy cfg.axis_chassis_map
          (chassisScale cfg (profileOf (classify cfg joy))) ("x")| ≤ 1/10 ∧
        |getVal joy cfg.axis_chassis_map
          (chassisScale cfg (profileOf (classify cfg joy))) ("y")| ≤ 1/10) →
      st.goal_init = true →
      1/4 ≤ t - st.last_goal_time →
      goalCount (joyCallback cfg joy t (some f) st).2 = 1 ∧
      (joyCallback cfg joy t (some f) st).1.last_goal_time = t ∧
      (joyCallback cfg joy t (some f) st).1.goal_init = true := by
    intro cfg st joy t f hm hcl hdz hgi hth
    rw [joyCallback_auto_eq cfg joy t (some f) st hm hcl,
      sendGoalPoseAction_submit cfg joy (profileOf (classify cfg joy)) t f st hdz hgi hth]
    exact ⟨by simp [goalCount, isGoal, fillJointStateMsg],
      by simp [fillJointStateMsg], by simp [fillJointStateMsg]⟩
  refine ⟨fun cfg st joy t f hm hcl hdz hgi hth => ?_,
    fun cfg st joy t f hm hcl hdz hgi hth => ?_,
    fun cfg st joy1 joy2 t1 f1 f2 hm hcl1 hcl2 hdz1 hdz2 hgi hth => ?_,
    fun cfg st joy1 joy2 t1 f1 f2 hm hcl1 hcl2 hdz1 hdz2 hgi hth => ?_⟩
  · obtain ⟨h1, h2, _, h4⟩ := hthrottled cfg st joy t f hm hcl hdz hgi hth
    exact ⟨h1, h2, h4⟩
  · obtain ⟨h1, h2, _⟩ := hsubmit cfg st joy t f hm hcl hdz hgi hth
    exact ⟨h1, h2⟩
  · obtain ⟨h1c, h1lg, h1gi⟩ := hsubmit cfg st joy1 t1 f1 hm hcl1 hdz1 hgi hth
    obtain ⟨h2c, _, _, _⟩ := hthrottled cfg (joyCallback cfg joy1 t1 (some f1) st).1
      joy2 (t1 + 1/10) f2 hm hcl2 hdz2 h1gi (by rw [h1lg]; linarith)
    simp only [runList, goalCount_append, h1c, h2c]
    simp [goalCount]
  · obtain ⟨h1c, h1lg, h1gi⟩ := hsubmit cfg st joy1 t1 f1 hm hcl1 hdz1 hgi hth
    obtain ⟨h2c, _, _⟩ := hsubmit cfg (joyCallback cfg joy1 t1 (some f1) st).1
      joy2 (t1 + 3/10) f2 hm hcl2 hdz2 h1gi (by rw [h1lg]; linarith)
    simp only [runList, goalCount_append, h1c, h2c]
    simp [goalCount]

/-- Witness for C3: two large-displacement samples from the initialized
throttle state: 0.1 s apart at most one goal, 0.3 s apart exactly
two. -/
theorem goal_throttle_spec_witness :
    goalCount (runList autoCfg stReady
      [(bigJoy, 1, some (fun p => p)), (bigJoy, 1 + 1/10, some (fun p => p))]).2 ≤ 1 ∧
    goalCount (runList autoCfg stReady
      [(bigJoy, 1, some (fun p => p)), (bigJoy, 1 + 3/10, some (fun p => p))]).2 = 2 := by
  have hcl : classify autoCfg bigJoy = EnableState.Normal := by decide
  have hdz : ¬(|getVal bigJoy autoCfg.axis_chassis_map
      (chassisScale autoCfg (profileOf (classify autoCfg bigJoy))) ("x")| ≤ 1/10 ∧
      |getVal bigJoy autoCfg.axis_chassis_map
        (chassisScale autoCfg (profileOf (classify autoCfg bigJoy))) ("y")| ≤ 1/10) := by
    rw [hcl]
    norm_num [profileOf, getVal, autoCfg, manualCfg, chassisScale, bigJoy,
      show Int.toNat 0 = 0 from rfl]
  constructor
  · exact goal_throttle_spec.2.2.1 autoCfg stReady bigJoy bigJoy 1
      (fun p => p) (fun p => p) (by decide) (by simp [hcl]) (by simp [hcl])
      hdz hdz (by decide) (by norm_num [stReady, st0])
  · exact goal_throttle_spec.2.2.2 autoCfg stReady bigJoy bigJoy 1
      (fun p => p) (fun p => p) (by decide) (by simp [hcl]) (by simp [hcl])
      hdz hdz (by decide) (by norm_num [stReady, st0])

/-- C7: on each enabled sample the accumulated pitch and yaw grow by the
mapped rate times the time elapsed since the previous invocation, and
the invocation timestamp advances to the current time; on the first
invocation the baseline is established with no accumulation; two
successive steps of durations dt1 and dt2 at constant mapped yaw rate v
accumulate exactly v*dt1 + v*dt2; and Disabled samples leave the
accumulators and the timestamp untouched, so the accumulators are never
reset. -/
theorem gimbal_integrator_spec :
    (∀ (cfg : Config) (st : NodeState) (joy : InputSample) (t : ℚ) (tf : TFLookup),
      classify cfg joy ≠ EnableState.Disabled →
      (joyCallback cfg joy t tf st).1.pitch =
        st.pitch + getVal joy cfg.axis_gimbal_map
          (gimbalScale cfg (profileOf (classify cfg joy))) ("pitch") *
          (t - (if st.joint_init then st.last_time else t)) ∧
      (joyCallback cfg joy t tf st).1.yaw =
        st.yaw + getVal joy cfg.axis_gimbal_map
          (gimbalScale cfg (profileOf (classify cfg joy))) ("yaw") *
          (t - (if st.joint_init then st.last_time else t)) ∧
      (joyCallback cfg joy t tf st).1.last_time = t ∧
      (joyCallback cfg joy t tf st).1.joint_init = true) ∧
    (∀ (cfg : Config) (st : NodeState) (joy : InputSample) (t : ℚ) (tf : TFLookup),
      classify cfg joy ≠ EnableState.Disabled →
      st.joint_init = false →
      (joyCallback cfg joy t tf st).1.pitch = st.pitch ∧
      (joyCallback cfg joy t tf st).1.yaw = st.yaw ∧
      (joyCallback cfg joy t tf st).1.last_time = t) ∧
    (∀ (cfg : Config) (st : NodeState) (joy : InputSample) (dt1 dt2 v : ℚ)
        (tf1 tf2 : TFLookup),
      classify cfg joy ≠ EnableState.Disabled →
      st.joint_init = true →
      getVal joy cfg.axis_gimbal_map
        (gimbalScale cfg (profileOf (classify cfg joy))) ("yaw") = v →
      (runList cfg st [(joy, st.last_time + dt1, tf1),
        (joy, st.last_time + dt1 + dt2, tf2)]).1.yaw =
        st.yaw + v * dt1 + v * dt2) ∧
    (∀ (cfg : Config) (st : NodeState) (joy : InputSample) (t : ℚ) (tf : TFLookup),
      classify cfg joy = EnableState.Disabled →
      (joyCallback cfg joy t tf st).1.pitch = st.pitch ∧
      (joyCallback cfg joy t tf st).1.yaw = st.yaw ∧
      (joyCallback cfg joy t tf st).1.last_time = st.last_time ∧
      (joyCallback cfg joy t tf st).1.joint_init = st.joint_init) := by
  have hstep : ∀ (cfg : Config) (st : NodeState) (joy : InputSample) (t : ℚ)
      (tf : TFLookup),
      classify cfg joy ≠ EnableState.Disabled →
      (joyCallback cfg joy t tf st).1.pitch =
        st.pitch + getVal joy cfg.axis_gimbal_map
          (gimbalScale cfg (profileOf (classify cfg joy))) ("pitch") *
          (t - (if st.joint_init then st.last_time else t)) ∧
      (joyCallback cfg joy t tf st).1.yaw =
        st.yaw + getVal joy cfg.axis_gimbal_map
          (gimbalScale cfg (profileOf (classify cfg joy))) ("yaw") *
          (t - (if st.joint_init then st.last_time else t)) ∧
      (joyCallback cfg joy t tf st).1.last_time = t ∧
      (joyCallback cfg joy t tf st).1.joint_init = true := by
    intro cfg st joy t tf hcl
    rw [joyCallback_enabled_eq cfg joy t tf st hcl]
    obtain ⟨hp, hy, hl, hj, _⟩ :=
      sendCmdVelMsg_gimbal cfg joy (profileOf (classify cfg joy)) t tf st
    exact ⟨hp, hy, hl, hj⟩
  refine ⟨hstep, ?_, ?_, ?_⟩
  · intro cfg st joy t tf hcl hji
    obtain ⟨hp, hy, hl, _⟩ := hstep cfg st joy t tf hcl
    rw [hji] at hp hy
    simp at hp hy
    exact ⟨hp, hy, hl⟩
  · intro cfg st joy dt1 dt2 v tf1 tf2 hcl hji hv
    obtain ⟨_, hy1, hl1, hj1⟩ := hstep cfg st joy (st.last_time + dt1) tf1 hcl
    rw [hv, hji] at hy1
    simp only [if_true] at hy1
    obtain ⟨_, hy2, hl2, _⟩ := hstep cfg (joyCallback cfg joy (st.last_time + dt1) tf1 st).1
      joy (st.last_time + dt1 + dt2) tf2 hcl
    rw [hv, hj1] at hy2
    simp only [if_true] at hy2
    simp only [runList]
    rw [hy2, hy1, hl1]
    ring
  · intro cfg st joy t tf hcl
    cases hs : st.sent_disable_msg
    · rw [joyCallback_disabled_unarmed cfg joy t tf st hcl hs]
      exact ⟨rfl, rfl, rfl, rfl⟩
    · rw [joyCallback_disabled_armed cfg joy t tf st hcl hs]
      exact ⟨rfl, rfl, rfl, rfl⟩

/-- Witness for C7: bigJoy at constant mapped yaw rate 1/2 over steps of
durations 2 and 3 accumulates yaw 1/2*2 + 1/2*3 from the initialized
state. -/
theorem gimbal_integrator_spec_witness :
    (runList manualCfg stReady [(bigJoy, stReady.last_time + 2, none),
      (bigJoy, stReady.last_time + 2 + 3, none)]).1.yaw =
      stReady.yaw + 1/2 * 2 + 1/2 * 3 := by
  have hcl : classify manualCfg bigJoy = EnableState.Normal := by decide
  exact gimbal_integrator_spec.2.2.1 manualCfg stReady bigJoy 2 3 (1/2) none none
    (by simp [hcl]) (by decide)
    (by rw [hcl]; norm_num [profileOf, getVal, manualCfg, gimbalScale,
      bigJoy, show Int.toNat 2 = 2 from rfl])

end PbTeleopTwistJoy
